import Mathlib

/-!
Verification of the mini Python Compiler (`src/c.py`, class `PythonCompiler`).

The development shallowly embeds the parts of the program that the spec talks
about:

* the constant-folding optimizer `_optimize_ast` (an `ast.NodeTransformer`
  subclass whose only method is `visit_BinOp`), both as a value-level tree
  transform and as a heap-level transform that tracks node identity (because
  `ast.NodeTransformer.generic_visit` reassigns child fields of the visited
  nodes in place);
* the compilation cache and the control flow of `compile_source`;
* the byte-level container codec: the header written by `generate_pyc` and the
  header validation performed by `load_pyc`.

Numeric constants are modelled as exact rationals: Python's `/` on numbers is
float division, but both the fold and the runtime evaluation of the unfolded
expression use the same operation, so the correctness claims proved here are
insensitive to replacing float arithmetic by exact rational arithmetic.
Properties that depend on float rounding are out of scope.
-/

/-- Constant values that can sit in an `ast.Constant` node: numbers (modelled
as exact rationals) and strings.  This is the sub-domain of Python values the
development covers. -/
inductive Value
  | num (q : ℚ)
  | str (s : String)
deriving DecidableEq, Repr

/-- The four binary operator nodes `_optimize_ast` dispatches on:
`ast.Add`, `ast.Sub`, `ast.Mult`, `ast.Div` (src/c.py lines 67-74). -/
inductive BinId
  | add
  | sub
  | mult
  | div
deriving DecidableEq, Repr

/-- Python's evaluation of `a op b` on the covered value domain, as invoked by
the fold expressions `node.left.value + node.right.value` etc. in
`visit_BinOp`.  `none` models a raised exception: division by zero, or operand
types that do not support the operator (e.g. `str - str`).  Number + number,
string + string (concatenation), and number `-`/`*`/`/` number succeed;
division by zero and all remaining combinations raise. -/
def pyBinOpEval : BinId → Value → Value → Option Value
  | BinId.add, Value.num a, Value.num b => some (Value.num (a + b))
  | BinId.add, Value.str a, Value.str b => some (Value.str (a ++ b))
  | BinId.sub, Value.num a, Value.num b => some (Value.num (a - b))
  | BinId.mult, Value.num a, Value.num b => some (Value.num (a * b))
  | BinId.div, Value.num a, Value.num b =>
      if b = 0 then none else some (Value.num (a / b))
  | _, _, _ => none

/-- Expression nodes of the Python AST that the optimizer can encounter:
`ast.Constant`, `ast.Name`, and `ast.BinOp` (value-level view, ignoring node
identity; the heap-level view below tracks identity). -/
inductive Expr
  | const (v : Value)
  | name (id : String)
  | binOp (left : Expr) (op : BinId) (right : Expr)
deriving DecidableEq, Repr

/-- Statement nodes: an expression statement `ast.Expr`. -/
inductive Stmt
  | exprStmt (value : Expr)
deriving DecidableEq, Repr

/-- An `ast.Module` is a list of statements. -/
abbrev PyModule := List Stmt

/-- The body of `Optimizer.visit_BinOp` (src/c.py lines 64-77): if both
immediate operands are `ast.Constant`, evaluate the operation and return a new
`ast.Constant`; if the evaluation raises (`except: pass`) or the operands are
not both constants, return the node unchanged.  The method does not call
`generic_visit`, so the node's children are never visited. -/
def visit_BinOp (node : Expr) : Expr :=
  match node with
  | Expr.binOp (Expr.const a) op (Expr.const b) =>
      match pyBinOpEval op a b with
      | some v => Expr.const v
      | none => node
  | _ => node

/-- `NodeTransformer.visit` dispatch on an expression node: a `BinOp` goes to
`visit_BinOp` (and its children are not visited, since `visit_BinOp` never
recurses); `Constant` and `Name` fall to `generic_visit`, which leaves them
unchanged because they have no AST-typed child fields. -/
def visit : Expr → Expr
  | Expr.binOp l op r => visit_BinOp (Expr.binOp l op r)
  | e => e

/-- `PythonCompiler._optimize_ast` applied to a module (value-level view):
`Optimizer().visit(module)` dispatches to `generic_visit`, which visits each
statement; visiting an expression statement visits its `value` field. -/
def optimize_ast (m : PyModule) : PyModule :=
  m.map (fun s => match s with | Stmt.exprStmt e => Stmt.exprStmt (visit e))

/-- Runtime evaluation of an expression by the external execution engine
(`exec` of the compiled code), restricted to the covered value domain: a
constant evaluates to its value, a name lookup is out of scope (`none`), and a
binary operation evaluates both operands and applies `pyBinOpEval`;
`none` models a raised exception. -/
def evalExpr : Expr → Option Value
  | Expr.const v => some v
  | Expr.name _ => none
  | Expr.binOp l op r =>
      match evalExpr l, evalExpr r with
      | some a, some b => pyBinOpEval op a b
      | _, _ => none

/-- C1: Shallow-fold property.  Applying the optimizer to the syntax tree of
`(1+2)+3` does not produce the literal `6`: `visit_BinOp` inspects only the
immediate operands of the outer node, whose left operand is a `BinOp` rather
than a `Constant`, so the outer node (inner `1+2` included) is returned
exactly as given, both at the expression level and when the expression sits
in a module. -/
theorem shallow_fold_preserved :
    visit (Expr.binOp
        (Expr.binOp (Expr.const (Value.num 1)) BinId.add (Expr.const (Value.num 2)))
        BinId.add (Expr.const (Value.num 3)))
      = Expr.binOp
        (Expr.binOp (Expr.const (Value.num 1)) BinId.add (Expr.const (Value.num 2)))
        BinId.add (Expr.const (Value.num 3))
    ∧ visit (Expr.binOp
        (Expr.binOp (Expr.const (Value.num 1)) BinId.add (Expr.const (Value.num 2)))
        BinId.add (Expr.const (Value.num 3)))
      ≠ Expr.const (Value.num 6)
    ∧ optimize_ast [Stmt.exprStmt (Expr.binOp
        (Expr.binOp (Expr.const (Value.num 1)) BinId.add (Expr.const (Value.num 2)))
        BinId.add (Expr.const (Value.num 3)))]
      = [Stmt.exprStmt (Expr.binOp
        (Expr.binOp (Expr.const (Value.num 1)) BinId.add (Expr.const (Value.num 2)))
        BinId.add (Expr.const (Value.num 3)))] := by
  refine ⟨rfl, ?_, rfl⟩
  intro h
  exact Expr.noConfusion h

/-- C2: Folding correctness.  For literal numeric constants `a`, `b` and each
of the four operators (with `b ≠ 0` for division), the optimizer replaces the
binary node by a single literal constant whose runtime evaluation agrees with
the runtime evaluation of the unfolded expression. -/
theorem folding_correct (a b : ℚ) (op : BinId) (hdiv : op = BinId.div → b ≠ 0) :
    ∃ v : Value,
      visit (Expr.binOp (Expr.const (Value.num a)) op (Expr.const (Value.num b)))
        = Expr.const v
      ∧ evalExpr (Expr.const v)
        = evalExpr (Expr.binOp (Expr.const (Value.num a)) op (Expr.const (Value.num b))) := by
  cases op with
  | add => exact ⟨Value.num (a + b), rfl, rfl⟩
  | sub => exact ⟨Value.num (a - b), rfl, rfl⟩
  | mult => exact ⟨Value.num (a * b), rfl, rfl⟩
  | div =>
      have hb : b ≠ 0 := hdiv rfl
      refine ⟨Value.num (a / b), ?_, ?_⟩
      · simp [visit, visit_BinOp, pyBinOpEval, hb]
      · simp [evalExpr, pyBinOpEval, hb]

/-- C2 witness: folding `6 / 3` at a concrete input. -/
theorem folding_correct_witness :
    ((BinId.div = BinId.div → (3 : ℚ) ≠ 0) ∧
      ∃ v : Value,
        visit (Expr.binOp (Expr.const (Value.num 6)) BinId.div (Expr.const (Value.num 3)))
          = Expr.const v
        ∧ evalExpr (Expr.const v)
          = evalExpr (Expr.binOp (Expr.const (Value.num 6)) BinId.div
              (Expr.const (Value.num 3)))) :=
  ⟨fun _ => by norm_num, folding_correct 6 3 BinId.div (fun _ => by norm_num)⟩

/-- C3: Folding safety.  For a binary node over two literal constants whose
evaluation raises (`pyBinOpEval … = none`, e.g. division by a constant zero or
unsupported operand types), the optimizer returns the original node unchanged;
it never raises, since the `try`/`except: pass` swallows the error (totality
of `visit` in this model). -/
theorem folding_safety (va vb : Value) (op : BinId)
    (h : pyBinOpEval op va vb = none) :
    visit (Expr.binOp (Expr.const va) op (Expr.const vb))
      = Expr.binOp (Expr.const va) op (Expr.const vb) := by
  simp [visit, visit_BinOp, h]

/-- C3 witness: division by constant zero, and string minus string (operand
types that do not support the operator), both leave the node unchanged. -/
theorem folding_safety_witness :
    (pyBinOpEval BinId.div (Value.num 1) (Value.num 0) = none ∧
      visit (Expr.binOp (Expr.const (Value.num 1)) BinId.div (Expr.const (Value.num 0)))
        = Expr.binOp (Expr.const (Value.num 1)) BinId.div (Expr.const (Value.num 0)))
    ∧ (pyBinOpEval BinId.sub (Value.str "a") (Value.str "b") = none ∧
      visit (Expr.binOp (Expr.const (Value.str "a")) BinId.sub (Expr.const (Value.str "b")))
        = Expr.binOp (Expr.const (Value.str "a")) BinId.sub (Expr.const (Value.str "b"))) :=
  ⟨⟨by norm_num [pyBinOpEval],
    folding_safety (Value.num 1) (Value.num 0) BinId.div (by norm_num [pyBinOpEval])⟩,
   ⟨rfl, folding_safety (Value.str "a") (Value.str "b") BinId.sub rfl⟩⟩

/-!
Bytecode container codec: `generate_pyc` (header writing, src/c.py lines
112-120) and `load_pyc` (header validation, lines 84-99).  Byte strings are
modelled as lists of naturals below 256.  The compiled artifact and the
external `marshal` serializer are parameters.
-/

/-- The magic constant `PythonCompiler.PYTHON_MAGIC`, i.e.
`importlib.util.MAGIC_NUMBER` of the CPython 3.13 build the program was
developed with: `(3571).to_bytes(2, 'little') + b'\r\n'`. -/
def PYTHON_MAGIC : List Nat := [0xF3, 0x0D, 0x0D, 0x0A]

/-- Little-endian byte decomposition of `n` into `len` bytes (the low
`8 * len` bits). -/
def leBytes : Nat → Nat → List Nat
  | _, 0 => []
  | n, k + 1 => n % 256 :: leBytes (n / 256) k

/-- Python's `int.to_bytes(len, 'little')` (unsigned): the little-endian
encoding when the value fits in `len` bytes, and `none` for the raised
`OverflowError: int too big to convert` when `n ≥ 2^(8*len)`. -/
def to_bytes (n : Nat) (len : Nat) : Option (List Nat) :=
  if n < 2 ^ (8 * len) then some (leBytes n len) else none

/-- The bytes `generate_pyc` writes (src/c.py lines 112-120), given the
`mtime` and `size` read from the source file and the external `marshal.dump`
serialization of the code object: the 4-byte magic, `mtime.to_bytes(4,
'little')`, `size.to_bytes(4, 'little')`, 4 zero padding bytes, then the
marshaled code.  `none` models a raised `OverflowError` from `to_bytes`
(no complete container is produced). -/
def generate_pycBytes {Code : Type} (marshalDump : Code → List Nat)
    (code : Code) (mtime size : Nat) : Option (List Nat) :=
  match to_bytes mtime 4, to_bytes size 4 with
  | some mb, some sb =>
      some (PYTHON_MAGIC ++ mb ++ sb ++ [0, 0, 0, 0] ++ marshalDump code)
  | _, _ => none

/-- `load_pyc` on the bytes of a `.pyc` file (src/c.py lines 84-99): read the
first 4 bytes and compare them to the magic; on mismatch raise
`CompilerError("Invalid magic number in .pyc file")`, which the surrounding
`except Exception` re-wraps as `CompilerError("Failed to load .pyc file: " +
str(e))`.  Otherwise skip 8 more bytes and hand the rest to the external
`marshal.load`, whose failure is wrapped the same way.  The error value is
the surfaced message string; note that `pyc_path` is never interpolated into
it. -/
def load_pycBytes {Code : Type} (marshalLoad : List Nat → Except String Code)
    (pyc_path : String) (data : List Nat) : Except String Code :=
  let magic := data.take 4
  if magic ≠ PYTHON_MAGIC then
    Except.error ("Failed to load .pyc file: " ++ "Invalid magic number in .pyc file")
  else
    match marshalLoad (data.drop 12) with
    | Except.ok c => Except.ok c
    | Except.error m => Except.error ("Failed to load .pyc file: " ++ m)

/-- C5 counterexample: encoding with the claim's own synthetic size
`2^32 + 5` does not succeed with the low 32 bits stored — `to_bytes` refuses
the oversized value and `generate_pyc` raises, producing no container at
all. -/
theorem size_not_masked_cex :
    generate_pycBytes (fun _ : Nat => ([] : List Nat)) 0 0 (2 ^ 32 + 5) = none := by
  decide

/-- C5 (amended): for every reported source size `≥ 2^32`, `generate_pyc`
fails — `size.to_bytes(4, 'little')` raises `OverflowError` instead of
masking, so no container bytes are produced and no truncated size is ever
stored. -/
theorem size_overflow_raises {Code : Type} (marshalDump : Code → List Nat)
    (code : Code) (mtime size : Nat) (h : 2 ^ 32 ≤ size) :
    generate_pycBytes marshalDump code mtime size = none := by
  have hlt : ¬ size < 2 ^ (8 * 4) := by
    simpa using not_lt.mpr h
  unfold generate_pycBytes to_bytes
  rw [if_neg hlt]
  cases (if mtime < 2 ^ (8 * 4) then some (leBytes mtime 4) else none) <;> rfl

/-- C5 witness: the amended statement at the synthetic size `2^32 + 5`. -/
theorem size_overflow_raises_witness :
    2 ^ 32 ≤ 2 ^ 32 + 5 ∧
      generate_pycBytes (fun _ : Nat => ([] : List Nat)) 0 0 (2 ^ 32 + 5) = none :=
  ⟨by norm_num,
   size_overflow_raises (fun _ : Nat => ([] : List Nat)) 0 0 (2 ^ 32 + 5) (by norm_num)⟩

/-- C7 counterexample: at `size = 2^32` (with `mtime = 7`) no encoded
container exists at all — `generate_pyc` raises — so the container does not
consist of a header carrying `size mod 2^32`, refuting the claim's universal
quantification over sizes. -/
theorem encode_layout_cex :
    generate_pycBytes (fun _ : Nat => [9]) 0 7 (2 ^ 32) = none := by
  decide

/-- C7 (amended): for every artifact, and every `mtime` and `size` below
`2^32` (larger values make `to_bytes` raise instead of encoding), the encoded
container is exactly the 16-byte header — magic, 4-byte little-endian mtime,
4-byte little-endian size, 4 zero bytes — immediately followed by the
marshaled artifact, with no additional framing or length prefix. -/
theorem encode_layout {Code : Type} (marshalDump : Code → List Nat)
    (code : Code) (mtime size : Nat) (hm : mtime < 2 ^ 32) (hs : size < 2 ^ 32) :
    generate_pycBytes marshalDump code mtime size
      = some (PYTHON_MAGIC ++ leBytes mtime 4 ++ leBytes size 4
          ++ [0, 0, 0, 0] ++ marshalDump code) := by
  have hm' : mtime < 2 ^ (8 * 4) := by simpa using hm
  have hs' : size < 2 ^ (8 * 4) := by simpa using hs
  unfold generate_pycBytes to_bytes
  rw [if_pos hm', if_pos hs']

/-- C7 witness: the amended layout at a concrete mtime and size. -/
theorem encode_layout_witness :
    1700000000 < 2 ^ 32 ∧ 1234 < 2 ^ 32 ∧
      generate_pycBytes (fun _ : Nat => [9]) 0 1700000000 1234
        = some (PYTHON_MAGIC ++ leBytes 1700000000 4 ++ leBytes 1234 4
            ++ [0, 0, 0, 0] ++ [9]) :=
  ⟨by norm_num, by norm_num,
   encode_layout (fun _ : Nat => [9]) 0 1700000000 1234 (by norm_num) (by norm_num)⟩

/-- C6: Magic rejection.  For every buffer whose first 4 bytes differ from
the magic constant, and for every deserializer, `load_pyc` fails with the
invalid-magic error; since the result is the same for all `marshalLoad`
functions, payload deserialization is never attempted. -/
theorem magic_rejection {Code : Type} (marshalLoad : List Nat → Except String Code)
    (pyc_path : String) (data : List Nat) (h : data.take 4 ≠ PYTHON_MAGIC) :
    load_pycBytes marshalLoad pyc_path data
      = Except.error "Failed to load .pyc file: Invalid magic number in .pyc file" := by
  unfold load_pycBytes
  simp [h]

/-- C6 witness: a concrete all-zero buffer is rejected. -/
theorem magic_rejection_witness :
    ([0, 0, 0, 0] : List Nat).take 4 ≠ PYTHON_MAGIC ∧
      load_pycBytes (fun _ => Except.ok (0 : Nat)) "t.pyc" [0, 0, 0, 0]
        = Except.error "Failed to load .pyc file: Invalid magic number in .pyc file" :=
  ⟨by decide, magic_rejection (fun _ => Except.ok (0 : Nat)) "t.pyc" [0, 0, 0, 0] (by decide)⟩

/-- C9 counterexample: decoding the path `"test.pyc"` with a bad-magic buffer
surfaces the container error, but the surfaced message does not contain the
offending file path (the source interpolates only the inner exception text,
never `pyc_path`). -/
theorem container_error_no_path_cex :
    load_pycBytes (fun _ => Except.ok (0 : Nat)) "test.pyc" [0, 0, 0, 0]
      = Except.error "Failed to load .pyc file: Invalid magic number in .pyc file"
    ∧ ¬ ("test.pyc".toList
          <:+: "Failed to load .pyc file: Invalid magic number in .pyc file".toList) := by
  constructor
  · unfold load_pycBytes
    rw [if_pos (by decide)]
    exact congrArg Except.error (by decide)
  · decide

/-- C9 (amended): the container errors surfaced by `load_pyc` carry fixed,
kind-identifying messages that are independent of the file path — the path is
never named in the surfaced error, for either the invalid-magic or the
corrupt-payload case. -/
theorem container_error_path_independent {Code : Type}
    (marshalLoad : List Nat → Except String Code) (p q : String) (data : List Nat) :
    load_pycBytes marshalLoad p data = load_pycBytes marshalLoad q data := rfl

/-!
Compilation cache and the control flow of `compile_source` (src/c.py lines
31-59).  The external parser (`ast.parse`) and lowerer (`compile`) are
parameters; call counters on them make "is not invoked again" observable.
The compiled code type is a parameter, since the code object is opaque to
this core.
-/

/-- The `self.optimizations` dictionary set in `PythonCompiler.__init__`. -/
structure Optimizations where
  constant_folding : Bool
  peephole : Bool
deriving DecidableEq, Repr

/-- The dictionary value from `__init__`: both optimizations enabled. -/
def initOptimizations : Optimizations := ⟨true, true⟩

/-- A deterministic stand-in for Python's `hash` on the source text.  Within
one process Python's string hash is a fixed deterministic function; its exact
value is irrelevant to the cache claims, only its determinism is used. -/
def pyHash (s : String) : Nat :=
  s.foldl (fun h c => (h * 31 + c.toNat) % 2 ^ 64) 7

/-- The external collaborators of `compile_source`: `ast.parse(source,
filename, 'exec')` and `compile(tree, filename, 'exec')`.  An `Except.error`
carries the raised exception's message `str(e)`. -/
structure Externals (Code : Type) where
  parse : String → String → Except String PyModule
  lower : PyModule → String → Except String Code

/-- The mutable state of a `PythonCompiler` instance relevant to
`compile_source`: the `optimizations` dictionary and the `_code_cache`
dictionary (modelled as an association list, newest entry first), plus call
counters on the external parse/optimize/lower steps that make redundant work
observable. -/
structure CompilerState (Code : Type) where
  optimizations : Optimizations
  code_cache : List ((String × Nat) × Code)
  parseCalls : Nat
  optimizeCalls : Nat
  lowerCalls : Nat

/-- A fresh `PythonCompiler()`: both optimizations on, empty cache. -/
def initState (Code : Type) : CompilerState Code :=
  ⟨initOptimizations, [], 0, 0, 0⟩

/-- Dictionary lookup in `_code_cache`. -/
def cacheLookup {Code : Type} (cache : List ((String × Nat) × Code))
    (key : String × Nat) : Option Code :=
  match cache with
  | [] => none
  | (k, c) :: rest => if k = key then some c else cacheLookup rest key

/-- `PythonCompiler._peephole_optimize` (src/c.py lines 80-82): returns the
code object unchanged. -/
def peephole_optimize {Code : Type} (code : Code) : Code := code

/-- `PythonCompiler.compile_source` (src/c.py lines 38-59): look up
`(filename, hash(source))` in `_code_cache` and return the hit directly;
otherwise parse, optionally fold constants, lower, optionally run the
peephole pass, store the result under the key and return it.  Any failure
inside the `try` block is re-raised as
`CompilerError("Compilation failed: " + str(e))` and nothing is stored.
The result pairs the returned value (or raised error) with the state of the
compiler after the call. -/
def compile_source {Code : Type} (ext : Externals Code)
    (self : CompilerState Code) (source : String) (filename : String) :
    Except String Code × CompilerState Code :=
  let cache_key := (filename, pyHash source)
  match cacheLookup self.code_cache cache_key with
  | some code => (Except.ok code, self)
  | none =>
    match ext.parse source filename with
    | Except.error m =>
        (Except.error ("Compilation failed: " ++ m),
         { self with parseCalls := self.parseCalls + 1 })
    | Except.ok tree =>
        let self1 : CompilerState Code := { self with parseCalls := self.parseCalls + 1 }
        let tree1 := if self1.optimizations.constant_folding then optimize_ast tree else tree
        let self2 : CompilerState Code :=
          if self1.optimizations.constant_folding
          then { self1 with optimizeCalls := self1.optimizeCalls + 1 }
          else self1
        match ext.lower tree1 filename with
        | Except.error m =>
            (Except.error ("Compilation failed: " ++ m),
             { self2 with lowerCalls := self2.lowerCalls + 1 })
        | Except.ok code =>
            let self3 : CompilerState Code := { self2 with lowerCalls := self2.lowerCalls + 1 }
            let code1 := if self3.optimizations.peephole then peephole_optimize code else code
            (Except.ok code1,
             { self3 with code_cache := (cache_key, code1) :: self3.code_cache })

/-- A cache hit returns the stored code and leaves the state untouched. -/
theorem compile_source_hit {Code : Type} (ext : Externals Code)
    (self : CompilerState Code) (source filename : String) (code : Code)
    (h : cacheLookup self.code_cache (filename, pyHash source) = some code) :
    compile_source ext self source filename = (Except.ok code, self) := by
  simp only [compile_source]
  rw [h]

/-- A successful call leaves the key bound to the returned code. -/
theorem compile_source_ok_cached {Code : Type} (ext : Externals Code)
    (self self' : CompilerState Code) (source filename : String) (code : Code)
    (h : compile_source ext self source filename = (Except.ok code, self')) :
    cacheLookup self'.code_cache (filename, pyHash source) = some code := by
  simp only [compile_source] at h
  cases hc : cacheLookup self.code_cache (filename, pyHash source) with
  | some c =>
      rw [hc] at h
      obtain ⟨h1, h2⟩ := Prod.mk.injEq .. ▸ h
      cases h1
      cases h2
      simpa using hc
  | none =>
      rw [hc] at h
      cases hp : ext.parse source filename with
      | error m => rw [hp] at h; simp at h
      | ok tree =>
          rw [hp] at h
          simp only at h
          cases hl : ext.lower
              (if self.optimizations.constant_folding then optimize_ast tree else tree)
              filename with
          | error m => rw [hl] at h; simp at h
          | ok c0 =>
              rw [hl] at h
              simp only at h
              obtain ⟨h1, h2⟩ := Prod.mk.injEq .. ▸ h
              cases h1
              cases h2
              simp [cacheLookup]

/-- C4: Cache idempotence.  If a call to `compile_source` succeeded with
result `code` and post-state `self'`, then calling it again on the same
identifier and text returns the same artifact directly from the cache and
changes nothing: the state (in particular every call counter on
parse/optimize/lower) is exactly `self'`, so none of parse, optimize or
lower runs a second time. -/
theorem cache_idempotent {Code : Type} (ext : Externals Code)
    (self self' : CompilerState Code) (source filename : String) (code : Code)
    (h : compile_source ext self source filename = (Except.ok code, self')) :
    compile_source ext self' source filename = (Except.ok code, self') :=
  compile_source_hit ext self' source filename code
    (compile_source_ok_cached ext self self' source filename code h)

/-- C4 witness: a concrete first call followed by a second call that is a
pure cache hit. -/
theorem cache_idempotent_witness :
    compile_source
        ⟨fun _ _ => Except.ok [Stmt.exprStmt (Expr.const (Value.num 1))],
         fun _ _ => Except.ok (42 : Nat)⟩
        (compile_source
          ⟨fun _ _ => Except.ok [Stmt.exprStmt (Expr.const (Value.num 1))],
           fun _ _ => Except.ok (42 : Nat)⟩
          (initState Nat) "x=1" "f.py").2
        "x=1" "f.py"
      = (Except.ok 42,
         (compile_source
          ⟨fun _ _ => Except.ok [Stmt.exprStmt (Expr.const (Value.num 1))],
           fun _ _ => Except.ok (42 : Nat)⟩
          (initState Nat) "x=1" "f.py").2) :=
  cache_idempotent _ (initState Nat) _ "x=1" "f.py" 42 rfl

/-- C10: Cache atomicity on failure.  Whenever `compile_source` fails — the
parser raised, or the lowering step raised before an artifact was produced —
it raises a `CompilerError` (a message of the form `"Compilation failed: " ++
cause`) and the compilation cache is left exactly as it was: no entry is
stored for the failing unit. -/
theorem compile_source_fail_cache {Code : Type} (ext : Externals Code)
    (self self' : CompilerState Code) (source filename : String) (e : String)
    (h : compile_source ext self source filename = (Except.error e, self')) :
    (∃ m, e = "Compilation failed: " ++ m) ∧ self'.code_cache = self.code_cache := by
  simp only [compile_source] at h
  cases hc : cacheLookup self.code_cache (filename, pyHash source) with
  | some c => rw [hc] at h; simp at h
  | none =>
      rw [hc] at h
      cases hp : ext.parse source filename with
      | error m =>
          rw [hp] at h
          obtain ⟨h1, h2⟩ := Prod.mk.injEq .. ▸ h
          cases h2
          exact ⟨⟨m, (Except.error.injEq .. ▸ h1.symm)⟩, rfl⟩
      | ok tree =>
          rw [hp] at h
          simp only at h
          cases hl : ext.lower
              (if self.optimizations.constant_folding then optimize_ast tree else tree)
              filename with
          | error m =>
              rw [hl] at h
              obtain ⟨h1, h2⟩ := Prod.mk.injEq .. ▸ h
              cases h2
              refine ⟨⟨m, (Except.error.injEq .. ▸ h1.symm)⟩, ?_⟩
              cases hf : self.optimizations.constant_folding <;> simp [hf]
          | ok c0 => rw [hl] at h; simp at h

/-- C10 witness: a parse failure raises a wrapped `CompilerError` and leaves
the (empty) cache unchanged. -/
theorem compile_source_fail_cache_witness :
    (∃ m, ("Compilation failed: " ++ "invalid syntax" : String)
        = "Compilation failed: " ++ m) ∧
      ((compile_source
          ⟨fun _ _ => Except.error "invalid syntax",
           fun _ _ => Except.ok (0 : Nat)⟩
          (initState Nat) "def" "f.py").2).code_cache
        = (initState Nat).code_cache :=
  compile_source_fail_cache
    ⟨fun _ _ => Except.error "invalid syntax", fun _ _ => Except.ok (0 : Nat)⟩
    (initState Nat) _ "def" "f.py" ("Compilation failed: " ++ "invalid syntax") rfl

/-!
Heap-level view of `_optimize_ast`, tracking node identity.  `src/c.py` runs
the fold through `ast.NodeTransformer` (CPython `Lib/ast.py`), whose
`generic_visit` reassigns the AST-typed child fields of the node it visits
(`setattr(node, field, new_node)`, and `old_value[:] = new_values` for list
fields) and returns the same node object.  To make that observable, nodes
live in a heap addressed by numeric identities, child fields hold identities,
and the visitor threads the heap.
-/

/-- A heap node of the Python AST: `ast.Module` (body of statement ids),
`ast.Expr` (expression statement, `value` field), `ast.BinOp` (`left`/`right`
fields), `ast.Constant`. -/
inductive HNode
  | hmodule (body : List Nat)
  | hexpr (value : Nat)
  | hbinOp (left : Nat) (op : BinId) (right : Nat)
  | hconst (v : Value)
deriving DecidableEq, Repr

/-- A heap of AST nodes: an association list from identities to nodes, plus
the next fresh identity. -/
structure Heap where
  nodes : List (Nat × HNode)
  nextId : Nat
deriving DecidableEq, Repr

/-- Read the node stored at identity `id`. -/
def hlookup (h : Heap) (id : Nat) : Option HNode :=
  let rec go : List (Nat × HNode) → Option HNode
    | [] => none
    | (k, n) :: rest => if k = id then some n else go rest
  go h.nodes

/-- Overwrite the node stored at identity `id` (Python `setattr` on a field of
an existing node: the object keeps its identity, its content changes). -/
def hset (h : Heap) (id : Nat) (n : HNode) : Heap :=
  let rec go : List (Nat × HNode) → List (Nat × HNode)
    | [] => []
    | (k, m) :: rest => if k = id then (k, n) :: rest else (k, m) :: go rest
  { h with nodes := go h.nodes }

/-- Allocate a fresh node (Python constructing a new `ast.Constant(...)`). -/
def halloc (h : Heap) (n : HNode) : Heap × Nat :=
  ({ nodes := (h.nextId, n) :: h.nodes, nextId := h.nextId + 1 }, h.nextId)

/-- Heap-level `visit_BinOp` on the node `id = BinOp(l, op, r)`: if both
operands are constants and the operation evaluates, allocate a new constant
node and return its identity (the original `BinOp` node is untouched);
otherwise return the visited node's identity unchanged. -/
def hvisitBinOp (h : Heap) (id l : Nat) (op : BinId) (r : Nat) : Heap × Nat :=
  match hlookup h l, hlookup h r with
  | some (HNode.hconst a), some (HNode.hconst b) =>
      match pyBinOpEval op a b with
      | some v => halloc h (HNode.hconst v)
      | none => (h, id)
  | _, _ => (h, id)

/-- Visit each identity of a list field in order, threading the heap
(the loop of `generic_visit` over a list field such as `Module.body`). -/
def hvisitFold (f : Heap → Nat → Heap × Nat) : Heap → List Nat → Heap × List Nat
  | h, [] => (h, [])
  | h, id :: rest =>
      let p := f h id
      let q := hvisitFold f p.1 rest
      (q.1, p.2 :: q.2)

/-- One dispatch step of `NodeTransformer.visit` on the node at `id`, given
the visitor `rec` for child nodes: a `BinOp` goes to `visit_BinOp` (children
not visited); `Module` and `Expr` fall to `generic_visit`, which visits their
child fields and reassigns them on the same node; `Constant` has no AST child
fields.  The returned identity is the node that replaces `id` in the parent. -/
def hvisitStep (rec : Heap → Nat → Heap × Nat) (h : Heap) (id : Nat) : Heap × Nat :=
  match hlookup h id with
  | some (HNode.hmodule body) =>
      let p := hvisitFold rec h body
      (hset p.1 id (HNode.hmodule p.2), id)
  | some (HNode.hexpr v) =>
      let p := rec h v
      (hset p.1 id (HNode.hexpr p.2), id)
  | some (HNode.hbinOp l op r) => hvisitBinOp h id l op r
  | some (HNode.hconst _) => (h, id)
  | none => (h, id)

/-- The fuelled visitor: `fuel` bounds the recursion depth (a finite acyclic
tree is fully traversed once `fuel` exceeds its depth). -/
def hvisit : Nat → Heap → Nat → Heap × Nat
  | 0 => fun h id => (h, id)
  | fuel + 1 => hvisitStep (hvisit fuel)

/-- Heap-level `PythonCompiler._optimize_ast`: `Optimizer().visit(node)` with
enough fuel for any tree stored in the heap (the node count bounds the
depth). -/
def hoptimize_ast (h : Heap) (id : Nat) : Heap × Nat :=
  hvisit (h.nodes.length + 1) h id

/-- The heap holding the module `ast.Module(body=[ast.Expr(value=ast.BinOp(
left=ast.Constant(1), op=ast.Add(), right=ast.Constant(2)))])` — the tree of
the one-statement program `1+2` — with the module at identity 0. -/
def exampleHeap : Heap :=
  ⟨[(0, HNode.hmodule [1]), (1, HNode.hexpr 2),
    (2, HNode.hbinOp 3 BinId.add 4),
    (3, HNode.hconst (Value.num 1)), (4, HNode.hconst (Value.num 2))], 5⟩

/-- C8 counterexample: running the optimizer on the tree of `1+2` mutates the
input tree in place — after the call, the `ast.Expr` statement node (identity
1) no longer holds its original content: its `value` field has been
reassigned by `generic_visit` to the freshly folded constant (identity 5),
so the input tree is not preserved. -/
theorem optimizer_mutates_cex :
    hlookup (hoptimize_ast exampleHeap 0).1 1 ≠ hlookup exampleHeap 1
    ∧ hlookup (hoptimize_ast exampleHeap 0).1 1 = some (HNode.hexpr 5)
    ∧ hlookup exampleHeap 1 = some (HNode.hexpr 2) := by
  refine ⟨?_, ?_, rfl⟩ <;>
    simp [hoptimize_ast, exampleHeap, hvisit, hvisitStep, hvisitFold, hvisitBinOp,
      hlookup, hlookup.go, hset, hset.go, halloc, pyBinOpEval]

/-- C8 (amended): the optimizer is not free of side effects on the input
tree.  Visiting a module returns the very same root node (the fold is also
delivered through the returned tree, which is the input object), and the
generic traversal reassigns child fields of the input's nodes in place: on
the tree of `1+2`, the statement node is updated to point at the folded
constant, so the fold is observable through the original tree as well. -/
theorem optimizer_mutates_in_place :
    (∀ (h : Heap) (id : Nat) (body : List Nat),
        hlookup h id = some (HNode.hmodule body) → (hoptimize_ast h id).2 = id)
    ∧ hlookup (hoptimize_ast exampleHeap 0).1 1 = some (HNode.hexpr 5) := by
  constructor
  · intro h id body hid
    simp [hoptimize_ast, hvisit, hvisitStep, hid]
  · simp [hoptimize_ast, exampleHeap, hvisit, hvisitStep, hvisitFold, hvisitBinOp,
      hlookup, hlookup.go, hset, hset.go, halloc, pyBinOpEval]

/-- C8 amended witness: the root identity is preserved at the example heap. -/
theorem optimizer_mutates_in_place_witness :
    hlookup exampleHeap 0 = some (HNode.hmodule [1])
    ∧ (hoptimize_ast exampleHeap 0).2 = 0 :=
  ⟨rfl, optimizer_mutates_in_place.1 exampleHeap 0 [1] rfl⟩
